import Mathlib

/-!
# Verification of the om-yashoda-dairy storefront core

Shallow embedding, in Lean 4, of the cart / checkout / rate-limiting /
validation logic of the `om-yashoda-dairy` repository, together with
theorems settling the specification claims about it.

Conventions of the embedding:
* JavaScript numbers are modelled as `Rat` (prices, quantities, totals) or
  `Int` (millisecond timestamps); none of the verified claims depends on
  floating-point rounding.
* A JavaScript string field that may be `undefined`/`null` is modelled as a
  `String` where `""` stands for the absent (falsy) value, matching the
  truthiness tests (`!x`) the source performs on those fields.
* A field that may be an arbitrary non-string / non-number / non-array value
  is modelled with `Option` (`none` = absent or of the wrong type).
* External collaborator calls (Firestore writes, HTTP fetches, e-mails) are
  modelled as events in a trace, with a `World` of Booleans saying which of
  the awaited calls succeed; a thrown exception is propagated exactly where
  the source's `try`/`catch` structure propagates it.
-/

namespace OmYashodaDairy

/-! ## Configuration constants (js/config.js, `CONFIG`) -/

namespace CONFIG

/-- Embeds `CONFIG.DELIVERY_CHARGE: 0` — delivery charge in rupees. -/
def DELIVERY_CHARGE : Rat := 0

/-- Embeds `CONFIG.MIN_ORDER_AMOUNT: 50` — minimum order amount in rupees. -/
def MIN_ORDER_AMOUNT : Rat := 50

/-- Embeds `CONFIG.DELIVERY_SLOTS` — the enumerated delivery time slots. -/
def DELIVERY_SLOTS : List String :=
  ["Morning (7 AM - 10 AM)", "Afternoon (12 PM - 3 PM)", "Evening (5 PM - 8 PM)"]

end CONFIG

/-! ## Rate limiter (api/submit-order.js, `isRateLimited`)

The store is the per-IP entry of `rateLimitStore`: the ordered list of
request timestamps (`Date.now()` milliseconds, modelled as `Int`).
-/

/-- Embeds `windowMs = 60 * 60 * 1000` — the one-hour window. -/
def windowMs : Int := 60 * 60 * 1000

/-- Embeds `maxRequests = 5`. -/
def maxRequests : Nat := 5

/-- Embeds `requests.filter(timestamp => now - timestamp < windowMs)` — the purge of
old timestamps done at the start of each check. -/
def recentRequestsOf (requests : List Int) (now : Int) : List Int :=
  requests.filter (fun timestamp => decide (now - timestamp < windowMs))

/-- Embeds `isRateLimited(ip)` restricted to one key: given the stored timestamp list
and the current instant, returns the decision (`true` = blocked) and the
stored list after the call.  On rejection the source returns before calling
`rateLimitStore.set`, so the store is left unchanged; on acceptance the
filtered list with `now` appended is stored. -/
def isRateLimited (store : List Int) (now : Int) : Bool × List Int :=
  let recentRequests := recentRequestsOf store now
  if maxRequests ≤ recentRequests.length then
    (true, store)
  else
    (false, recentRequests ++ [now])

/-- Runs a sequence of rate-limit checks at the given instants, starting from
a given store, collecting the decisions. -/
def runChecks (store : List Int) : List Int → List Bool × List Int
  | [] => ([], store)
  | t :: ts =>
    let r := isRateLimited store t
    let rest := runChecks r.2 ts
    (r.1 :: rest.1, rest.2)

/-! ## Product catalog (js/products.js) -/

/-- A `Product` record as served by the catalog; only the fields the verified
logic reads are kept (identifier, English display name, unit price, unit
label, stock flag). -/
structure Product where
  id : String
  nameEnglish : String
  price : Rat
  unit : String
  inStock : Bool
deriving DecidableEq, Repr

/-- Embeds `getProductById(productId)`: `products.find(p => p.id === productId) || null`,
with the fetched catalog passed explicitly. -/
def getProductById (products : List Product) (productId : String) : Option Product :=
  products.find? (fun p => p.id == productId)

/-! ## Cart engine (js/cart.js section of checkout.js) -/

/-- A stored cart entry: `{productId, quantity, addedAt}`. -/
structure CartItem where
  productId : String
  quantity : Rat
  addedAt : String
deriving DecidableEq, Repr

/-- Embeds `existingItem.quantity += quantity` — increments the quantity of the first
entry matching `productId` (the entry `cart.find` returns). -/
def incrementFirst (productId : String) (quantity : Rat) : List CartItem → List CartItem
  | [] => []
  | item :: rest =>
    if item.productId == productId then
      { item with quantity := item.quantity + quantity } :: rest
    else
      item :: incrementFirst productId quantity rest

/-- Embeds `item.quantity = newQuantity` — replaces the quantity of the first entry
matching `productId`. -/
def setFirst (productId : String) (newQuantity : Rat) : List CartItem → List CartItem
  | [] => []
  | item :: rest =>
    if item.productId == productId then
      { item with quantity := newQuantity } :: rest
    else
      item :: setFirst productId newQuantity rest

/-- Embeds `addToCart(productId, quantity = 1)`: validates that the product exists
and is in stock (otherwise the cart is unchanged and `false` is returned),
then increments the existing entry's quantity or pushes a new entry.
`localStorage` writes are assumed to succeed, so `saveCart` returns `true`. -/
def addToCart (products : List Product) (cart : List CartItem)
    (productId : String) (quantity : Rat) (addedAt : String) :
    List CartItem × Bool :=
  match getProductById products productId with
  | none => (cart, false)
  | some product =>
    if !product.inStock then (cart, false)
    else if cart.any (fun item => item.productId == productId) then
      (incrementFirst productId quantity cart, true)
    else
      (cart ++ [{ productId := productId, quantity := quantity, addedAt := addedAt }], true)

/-- Embeds `removeFromCart(productId)`: filters the entry out; returns `false` when
the item was not in the cart (cart unchanged). -/
def removeFromCart (cart : List CartItem) (productId : String) :
    List CartItem × Bool :=
  let filteredCart := cart.filter (fun item => !(item.productId == productId))
  if filteredCart.length == cart.length then (cart, false)
  else (filteredCart, true)

/-- Embeds `updateCartItem(productId, newQuantity)`: a value below 1 delegates to
`removeFromCart`; otherwise the first matching entry's quantity is replaced by
`newQuantity` as given (the source applies no clamping), and an absent item
yields `false` with the cart unchanged. -/
def updateCartItem (cart : List CartItem) (productId : String) (newQuantity : Rat) :
    List CartItem × Bool :=
  if newQuantity < 1 then removeFromCart cart productId
  else if cart.any (fun item => item.productId == productId) then
    (setFirst productId newQuantity cart, true)
  else (cart, false)

/-- Embeds `clearCart()` removes the storage slot: the cart becomes empty. -/
def clearCart : List CartItem := []

/-- One entry of `getCartWithDetails()`: the cart entry spread together with
its `product` and `subtotal: product.price * item.quantity`. -/
structure CartItemDetail where
  productId : String
  quantity : Rat
  addedAt : String
  product : Product
  subtotal : Rat
deriving DecidableEq, Repr

/-- Embeds `getCartWithDetails()`: enriches each cart entry with its catalog product;
entries whose `getProductById` is `null` are skipped (silently dropped). -/
def getCartWithDetails (products : List Product) : List CartItem → List CartItemDetail
  | [] => []
  | item :: rest =>
    match getProductById products item.productId with
    | some product =>
      { productId := item.productId, quantity := item.quantity, addedAt := item.addedAt,
        product := product, subtotal := product.price * item.quantity }
        :: getCartWithDetails products rest
    | none => getCartWithDetails products rest

/-- Embeds `calculateSubtotal()`: `cartItems.reduce((sum, item) => sum + item.subtotal, 0)`. -/
def calculateSubtotal (products : List Product) (cart : List CartItem) : Rat :=
  (getCartWithDetails products cart).foldl (fun sum item => sum + item.subtotal) 0

/-- Embeds `calculateDeliveryCharge(subtotal)`: both branches of the source return
`CONFIG.DELIVERY_CHARGE` (the free-delivery threshold test has no effect). -/
def calculateDeliveryCharge (subtotal : Rat) : Rat :=
  if CONFIG.MIN_ORDER_AMOUNT ≤ subtotal then CONFIG.DELIVERY_CHARGE
  else CONFIG.DELIVERY_CHARGE

/-- Result record of `calculateTotal()`: `{subtotal, delivery, total}`. -/
structure Totals where
  subtotal : Rat
  delivery : Rat
  total : Rat
deriving DecidableEq, Repr

/-- Embeds `calculateTotal()`. -/
def calculateTotal (products : List Product) (cart : List CartItem) : Totals :=
  let subtotal := calculateSubtotal products cart
  let delivery := calculateDeliveryCharge subtotal
  { subtotal := subtotal, delivery := delivery, total := subtotal + delivery }

/-! ## Validation results -/

/-- Embeds `{isValid, errors}` as returned by the validators.  The source computes
`isValid: errors.length === 0`. -/
structure ValidationResult where
  isValid : Bool
  errors : List String
deriving DecidableEq, Repr

/-! ## Utility functions (js/utils.js) -/

/-- The ASCII whitespace characters of JavaScript's `\s` class (the verified
inputs contain no exotic Unicode whitespace). -/
def jsSpace (c : Char) : Bool :=
  c == ' ' || c == '\t' || c == '\n' || c == '\r' || c == '\x0b' || c == '\x0c'

/-- JavaScript `String.prototype.trim()`: strips whitespace from both ends. -/
def jsTrim (s : String) : String :=
  ⟨((s.data.dropWhile jsSpace).reverse.dropWhile jsSpace).reverse⟩

/-- The core of `CONFIG.PHONE_REGEX` after the optional prefix: `[6-9]\d{9}`
anchored at both ends. -/
def phoneCore : List Char → Bool
  | [] => false
  | c :: rest => ('6' ≤ c) && (c ≤ '9') && (rest.length == 9) && rest.all Char.isDigit

/-- Embeds `validatePhone(phone)`: `CONFIG.PHONE_REGEX.test(phone)` with
`PHONE_REGEX = /^(\+91|91)?[6-9]\d{9}$/`; the anchored alternation is the
disjunction of the three possible prefixes. -/
def validatePhone (phone : String) : Bool :=
  let cs := phone.data
  (match cs with
   | '+' :: '9' :: '1' :: rest => phoneCore rest
   | _ => false)
  || (match cs with
      | '9' :: '1' :: rest => phoneCore rest
      | _ => false)
  || phoneCore cs

/-- Embeds `validateEmail(email)`: `CONFIG.EMAIL_REGEX.test(email)` with
`EMAIL_REGEX = /^[^\s@]+@[^\s@]+\.[^\s@]+$/`.  Equivalently: exactly one `@`,
a non-empty space-free local part, and a non-empty space-free domain part
containing a dot that is neither its first nor its last character. -/
def validateEmail (email : String) : Bool :=
  match email.data.splitOn '@' with
  | [localPart, domainPart] =>
    (!localPart.isEmpty) && localPart.all (fun c => !jsSpace c)
      && (!domainPart.isEmpty) && domainPart.all (fun c => !jsSpace c)
      && ((domainPart.drop 1).dropLast.contains '.')
  | _ => false

/-- The JavaScript value passed to `sanitizeInput`: a string, or any
non-string value (which the source maps to `''`). -/
inductive JSInput where
  | str (s : String)
  | nonString
deriving DecidableEq, Repr

/-- The per-character replacement table of `sanitizeInput`
(`& < > " ' /` mapped to their HTML entities, other characters kept). -/
def sanitizeChar (c : Char) : List Char :=
  if c = '&' then "&amp;".data
  else if c = '<' then "&lt;".data
  else if c = '>' then "&gt;".data
  else if c = Char.ofNat 34 then "&quot;".data
  else if c = Char.ofNat 39 then "&#x27;".data
  else if c = '/' then "&#x2F;".data
  else [c]

/-- Embeds `input.replace(/[&<>"'/]/g, char => map[char])` over the character list. -/
def sanitizeList : List Char → List Char
  | [] => []
  | c :: rest => sanitizeChar c ++ sanitizeList rest

/-- Embeds `sanitizeInput(input)`: `''` for any non-string input, otherwise the
global entity-escaping replacement. -/
def sanitizeInput : JSInput → String
  | .nonString => ""
  | .str s => ⟨sanitizeList s.data⟩

/-! ## Checkout form validation (js/checkout.js, `validateCheckoutForm`) -/

/-- The checkout form fields.  `""` models an absent (falsy) field. -/
structure CheckoutForm where
  name : String
  phone : String
  email : String
  address : String
  deliverySlot : String
  landmark : String
  specialInstructions : String
deriving DecidableEq, Repr

/-- Embeds `validateCheckoutForm(formData)`: name (trimmed length ≥ 2), phone
(regex), optional email, address (trimmed length ≥ 10), and a truthy
`deliverySlot`; one message per violated rule, in source order. -/
def validateCheckoutForm (formData : CheckoutForm) : ValidationResult :=
  let errors :=
    (if formData.name = "" ∨ (jsTrim formData.name).length < 2 then
      ["Please enter your full name"] else [])
    ++ (if !validatePhone formData.phone then
      ["Please enter a valid 10-digit mobile number"] else [])
    ++ (if formData.email ≠ "" ∧ !validateEmail formData.email then
      ["Please enter a valid email address"] else [])
    ++ (if formData.address = "" ∨ (jsTrim formData.address).length < 10 then
      ["Please enter a complete delivery address"] else [])
    ++ (if formData.deliverySlot = "" then
      ["Please select a delivery time slot"] else [])
  { isValid := errors.length == 0, errors := errors }

/-! ## Cart validation before checkout (js/cart.js, `validateCart`) -/

/-- Embeds `validateCart()`: empty-cart short-circuit, then one message per
out-of-stock enriched item, then the minimum-order-amount check. -/
def validateCart (products : List Product) (cart : List CartItem) : ValidationResult :=
  if cart = [] then
    { isValid := false, errors := ["Your cart is empty"] }
  else
    let cartItems := getCartWithDetails products cart
    let outOfStockItems := cartItems.filter (fun item => !item.product.inStock)
    let totals := calculateTotal products cart
    let errors :=
      outOfStockItems.map (fun item => item.product.nameEnglish ++ " is out of stock")
      ++ (if totals.subtotal < CONFIG.MIN_ORDER_AMOUNT then
        ["Minimum order amount is ₹50"] else [])
    { isValid := errors.length == 0, errors := errors }

/-! ## Checkout orchestration (js/checkout.js, `processCheckout`)

`processCheckout` validates the form, enriches the cart (throwing on an empty
result), then inside one `try` block awaits, in order:
`DatabaseService.createOrder`, `submitOrder` (the POST that triggers the
notification fan-out), `DatabaseService.updateUser` (only when
`formData.phone` is truthy), and finally calls `clearCart` and returns the
order id.  Any rejection inside the `try` jumps to the `catch`, which
rethrows; the steps after the failing one never run.
-/

/-- The external side effects `processCheckout` can issue, in source order. -/
inductive Ev where
  | createOrder
  | submitNotif
  | updateUser
  | clearCartEv
deriving DecidableEq, Repr

/-- Outcomes of the awaited external calls of one checkout attempt
(`true` = the promise fulfills, `false` = it rejects). -/
structure CheckoutWorld where
  createOk : Bool
  submitOk : Bool
  updateOk : Bool
deriving DecidableEq, Repr

/-- Embeds `processCheckout(formData, user)`: returns the trace of issued side
effects and `some orderId` on success / `none` when the attempt throws.
`orderId` stands for the value of `generateOrderId()` (date + random suffix,
modelled as an input). -/
def processCheckout (products : List Product) (cart : List CartItem)
    (formData : CheckoutForm) (orderId : String) (w : CheckoutWorld) :
    List Ev × Option String :=
  if !(validateCheckoutForm formData).isValid then ([], none)
  else
    let cartItems := getCartWithDetails products cart
    if cartItems.length = 0 then ([], none)
    else
      if !w.createOk then ([Ev.createOrder], none)
      else if !w.submitOk then ([Ev.createOrder, Ev.submitNotif], none)
      else if formData.phone ≠ "" then
        if !w.updateOk then ([Ev.createOrder, Ev.submitNotif, Ev.updateUser], none)
        else ([Ev.createOrder, Ev.submitNotif, Ev.updateUser, Ev.clearCartEv], some orderId)
      else ([Ev.createOrder, Ev.submitNotif, Ev.clearCartEv], some orderId)

/-! ## Order payload validation (api/submit-order.js, `validateOrderData`) -/

/-- Embeds `orderData.customer`: the contact block.  `""` models an absent (falsy)
string field. -/
structure OrderCustomer where
  name : String
  phone : String
  address : String
  email : String
  landmark : String
deriving DecidableEq, Repr

/-- One snapshotted line item (only fields the notification templates read). -/
structure OrderLineItem where
  productId : String
  productName : String
  quantity : Rat
  price : Rat
  unit : String
  subtotal : Rat
deriving DecidableEq, Repr

/-- A candidate order payload.  `customer = none` models an absent customer
block, `items = none` an absent or non-array `items` value, and
`total = none` a `total` that is not a number. -/
structure OrderData where
  orderId : String
  userId : String
  customer : Option OrderCustomer
  items : Option (List OrderLineItem)
  total : Option Rat
deriving DecidableEq, Repr

/-- Embeds `validateOrderData(orderData)`: required top-level fields, the items
array, the customer sub-fields (only when the block is present), and the
positive numeric total; one message per violated rule, no short-circuiting. -/
def validateOrderData (orderData : OrderData) : ValidationResult :=
  let errors :=
    (if orderData.orderId = "" then ["Order ID is required"] else [])
    ++ (if orderData.userId = "" then ["User ID is required"] else [])
    ++ (if orderData.customer.isNone then ["Customer details are required"] else [])
    ++ (match orderData.items with
        | none => ["Order must contain at least one item"]
        | some items =>
          if items.length = 0 then ["Order must contain at least one item"] else [])
    ++ (match orderData.customer with
        | none => []
        | some customer =>
          (if customer.name = "" then ["Customer name is required"] else [])
          ++ (if customer.phone = "" then ["Customer phone is required"] else [])
          ++ (if customer.address = "" then ["Customer address is required"] else []))
    ++ (match orderData.total with
        | none => ["Invalid order total"]
        | some total => if total ≤ 0 then ["Invalid order total"] else [])
  { isValid := errors.length == 0, errors := errors }

/-! ## Order submission endpoint (api/submit-order.js, `handler`)

The handler answers the CORS preflight, rejects non-POST methods, rate-limits
by client IP, validates the payload, then dispatches the notification e-mails
(owner always, customer only when `customer.email` is truthy) via
`Promise.allSettled`; both senders swallow their own errors and return a
Boolean, so a failed e-mail never changes the response.  The
notification-results logging that follows reads `notifications[1].status`
unconditionally: when `customer.email` is falsy only one promise was pushed,
so `notifications[1]` is `undefined`, the read throws a `TypeError` inside
the outer `try`, and the handler answers 500 — after the owner e-mail was
already dispatched and awaited.  (With an email present, `.status` of a
promise object is merely `undefined`, so nothing throws and the handler
answers 200.)  The handler performs no database write of any kind;
`HEv.persistOrder` exists in the event alphabet only so that the absence of
a persistence call is expressible. -/

/-- External calls the submission endpoint could issue. -/
inductive HEv where
  | persistOrder
  | ownerEmail
  | customerEmail
deriving DecidableEq, Repr

/-- Embeds `handler(req, res)` for one request: HTTP method, the rate-limit store
entry for the caller's IP, the current instant, and the parsed JSON body;
returns the response status, the updated store entry, and the trace of
external calls.  The final branch pair reflects the logging `TypeError`: a
validated payload whose customer e-mail is empty gets 500 with only the
owner e-mail dispatched, one with an e-mail gets 200 with both dispatched. -/
def handler (method : String) (store : List Int) (now : Int) (body : OrderData) :
    Nat × List Int × List HEv :=
  if method = "OPTIONS" then (200, store, [])
  else if method ≠ "POST" then (405, store, [])
  else
    let r := isRateLimited store now
    if r.1 then (429, r.2, [])
    else if !(validateOrderData body).isValid then (400, r.2, [])
    else
      match body.customer with
      | none => (500, r.2, [])
      | some customer =>
        if customer.email ≠ "" then
          (200, r.2, [HEv.ownerEmail, HEv.customerEmail])
        else
          (500, r.2, [HEv.ownerEmail])

/-! ## Concrete sample data used by witnesses and counterexamples -/

/-- A one-product catalog with the ghee product in stock. -/
def sampleCatalog : List Product :=
  [{ id := "buffalo-ghee", nameEnglish := "Buffalo Ghee", price := 800, unit := "1kg",
     inStock := true }]

/-- The same catalog with the product out of stock. -/
def outOfStockCatalog : List Product :=
  [{ id := "buffalo-ghee", nameEnglish := "Buffalo Ghee", price := 800, unit := "1kg",
     inStock := false }]

/-- A cart holding two units of the ghee product. -/
def sampleCart : List CartItem :=
  [{ productId := "buffalo-ghee", quantity := 2, addedAt := "" }]

/-- A checkout form that passes every check of `validateCheckoutForm`. -/
def sampleForm : CheckoutForm :=
  { name := "Jayesh Rajput", phone := "9876543210", email := "",
    address := "123 Dairy Street Kalyan West", deliverySlot := "Morning (7 AM - 10 AM)",
    landmark := "", specialInstructions := "" }

/-- An order payload that passes every check of `validateOrderData`. -/
def sampleOrderData : OrderData :=
  { orderId := "ORD-20260212-001", userId := "user1",
    customer := some { name := "Jayesh Rajput", phone := "9876543210",
                       address := "123 Dairy Street Kalyan West", email := "", landmark := "" },
    items := some [{ productId := "buffalo-ghee", productName := "Buffalo Ghee", quantity := 2,
                     price := 800, unit := "1kg", subtotal := 1600 }],
    total := some 1600 }

/-- The customer block of `sampleOrderDataWithEmail`. -/
def sampleCustomerWithEmail : OrderCustomer :=
  { name := "Jayesh Rajput", phone := "9876543210",
    address := "123 Dairy Street Kalyan West", email := "jayesh@example.com", landmark := "" }

/-- The same valid order payload with a customer e-mail present, so the
handler's notification-results logging does not throw. -/
def sampleOrderDataWithEmail : OrderData :=
  { sampleOrderData with customer := some sampleCustomerWithEmail }

/-! ## Helper lemmas -/

/-- The purge keeps the whole store when every recorded instant is still
inside the window. -/
lemma recentRequestsOf_eq_self (store : List Int) (now : Int)
    (h : ∀ t ∈ store, now - t < windowMs) : recentRequestsOf store now = store :=
  List.filter_eq_self.mpr fun t ht => decide_eq_true (h t ht)

/-- The purge empties the store when every recorded instant has aged out of
the window. -/
lemma recentRequestsOf_eq_nil (store : List Int) (now : Int)
    (h : ∀ t ∈ store, windowMs ≤ now - t) : recentRequestsOf store now = [] := by
  rw [recentRequestsOf, List.filter_eq_nil_iff]
  intro t ht
  simpa using not_lt.mpr (h t ht)

/-- Acceptance case of a single rate-limit check. -/
lemma isRateLimited_accept (store : List Int) (now : Int)
    (h : (recentRequestsOf store now).length < maxRequests) :
    isRateLimited store now = (false, recentRequestsOf store now ++ [now]) := by
  rw [isRateLimited, if_neg (by omega)]

/-- Rejection case of a single rate-limit check. -/
lemma isRateLimited_reject (store : List Int) (now : Int)
    (h : maxRequests ≤ (recentRequestsOf store now).length) :
    isRateLimited store now = (true, store) := by
  rw [isRateLimited, if_pos h]

/-! ## Claim theorems -/

/-- Claim C1: each rate-limit check first purges instants that have left the
one-hour window; with 5 or more remaining it rejects and leaves the store
unchanged (records nothing), otherwise it records the current instant and
accepts.  Consequently the 6th request of an identifier within a rolling
60-minute window is rejected, and the first request issued after every
recorded instant has aged a full hour is accepted. -/
theorem claim_C1_rate_limiter :
    (∀ store now, maxRequests ≤ (recentRequestsOf store now).length →
      isRateLimited store now = (true, store))
  ∧ (∀ store now, (recentRequestsOf store now).length < maxRequests →
      isRateLimited store now = (false, recentRequestsOf store now ++ [now]))
  ∧ (∀ t1 t2 t3 t4 t5 t6 : Int, t1 ≤ t2 → t2 ≤ t3 → t3 ≤ t4 → t4 ≤ t5 → t5 ≤ t6 →
      t6 - t1 < windowMs →
      (runChecks [] [t1, t2, t3, t4, t5, t6]).1 = [false, false, false, false, false, true])
  ∧ (∀ store now, (∀ t ∈ store, windowMs ≤ now - t) →
      (isRateLimited store now).1 = false) := by
  refine ⟨isRateLimited_reject, isRateLimited_accept, ?_, ?_⟩
  · intro t1 t2 t3 t4 t5 t6 h12 h23 h34 h45 h56 hwin
    have e1 : recentRequestsOf [] t1 = [] := rfl
    have e2 : recentRequestsOf [t1] t2 = [t1] :=
      recentRequestsOf_eq_self _ _ (by intro t ht; fin_cases ht <;> omega)
    have e3 : recentRequestsOf [t1, t2] t3 = [t1, t2] :=
      recentRequestsOf_eq_self _ _ (by intro t ht; fin_cases ht <;> omega)
    have e4 : recentRequestsOf [t1, t2, t3] t4 = [t1, t2, t3] :=
      recentRequestsOf_eq_self _ _ (by intro t ht; fin_cases ht <;> omega)
    have e5 : recentRequestsOf [t1, t2, t3, t4] t5 = [t1, t2, t3, t4] :=
      recentRequestsOf_eq_self _ _ (by intro t ht; fin_cases ht <;> omega)
    have e6 : recentRequestsOf [t1, t2, t3, t4, t5] t6 = [t1, t2, t3, t4, t5] :=
      recentRequestsOf_eq_self _ _ (by intro t ht; fin_cases ht <;> omega)
    have a1 : isRateLimited [] t1 = (false, [t1]) := by
      rw [isRateLimited_accept _ _ (by rw [e1]; decide), e1]; rfl
    have a2 : isRateLimited [t1] t2 = (false, [t1, t2]) := by
      rw [isRateLimited_accept _ _ (by rw [e2]; simp [maxRequests]), e2]; rfl
    have a3 : isRateLimited [t1, t2] t3 = (false, [t1, t2, t3]) := by
      rw [isRateLimited_accept _ _ (by rw [e3]; simp [maxRequests]), e3]; rfl
    have a4 : isRateLimited [t1, t2, t3] t4 = (false, [t1, t2, t3, t4]) := by
      rw [isRateLimited_accept _ _ (by rw [e4]; simp [maxRequests]), e4]; rfl
    have a5 : isRateLimited [t1, t2, t3, t4] t5 = (false, [t1, t2, t3, t4, t5]) := by
      rw [isRateLimited_accept _ _ (by rw [e5]; simp [maxRequests]), e5]; rfl
    have a6 : isRateLimited [t1, t2, t3, t4, t5] t6 = (true, [t1, t2, t3, t4, t5]) := by
      rw [isRateLimited_reject _ _ (by rw [e6]; simp [maxRequests])]
    simp [runChecks, a1, a2, a3, a4, a5, a6]
  · intro store now h
    rw [isRateLimited_accept store now (by rw [recentRequestsOf_eq_nil store now h]; decide)]

/-- Witness for C1 at concrete instants: six requests inside one hour produce
five acceptances then a rejection, and a request issued one full hour after
the only recorded instant is accepted. -/
theorem claim_C1_witness :
    (runChecks [] [0, 600, 1200, 1800, 2400, 3000]).1
      = [false, false, false, false, false, true]
  ∧ (isRateLimited [0] 3600000).1 = false :=
  ⟨claim_C1_rate_limiter.2.2.1 0 600 1200 1800 2400 3000
      (by decide) (by decide) (by decide) (by decide) (by decide) (by decide),
    claim_C1_rate_limiter.2.2.2 [0] 3600000 (by intro t ht; fin_cases ht <;> decide)⟩

/-- Helper: `getCartWithDetails` as a `filterMap`: each entry is joined with its
product and the entries whose product is gone are dropped. -/
lemma getCartWithDetails_eq_filterMap (products : List Product) (cart : List CartItem) :
    getCartWithDetails products cart = cart.filterMap (fun item =>
      (getProductById products item.productId).map (fun product =>
        { productId := item.productId, quantity := item.quantity, addedAt := item.addedAt,
          product := product, subtotal := product.price * item.quantity })) := by
  induction cart with
  | nil => rfl
  | cons item rest ih =>
    rw [getCartWithDetails, List.filterMap_cons]
    cases h : getProductById products item.productId <;> simp [h, ih]

/-- The `reduce`-style fold of the subtotals equals the accumulator plus the
sum of the mapped subtotals. -/
lemma foldl_subtotal_eq_sum (l : List CartItemDetail) (a : Rat) :
    l.foldl (fun sum item => sum + item.subtotal) a = a + (l.map (·.subtotal)).sum := by
  induction l generalizing a with
  | nil => simp
  | cons item rest ih => rw [List.foldl_cons, ih, List.map_cons, List.sum_cons]; ring

/-- Claim C2: `computeTotals` drops cart items whose product identifier has no
matching product, the subtotal is the sum of `price × quantity` over the
remaining items, the delivery charge is the configured flat value for every
subtotal (the free-delivery threshold changes nothing), and
`total = subtotal + deliveryCharge`. -/
theorem claim_C2_compute_totals : ∀ (products : List Product) (cart : List CartItem),
    getCartWithDetails products cart = cart.filterMap (fun item =>
      (getProductById products item.productId).map (fun product =>
        { productId := item.productId, quantity := item.quantity, addedAt := item.addedAt,
          product := product, subtotal := product.price * item.quantity }))
  ∧ calculateSubtotal products cart = (cart.filterMap (fun item =>
      (getProductById products item.productId).map (fun product =>
        product.price * item.quantity))).sum
  ∧ (∀ subtotal : Rat, calculateDeliveryCharge subtotal = CONFIG.DELIVERY_CHARGE)
  ∧ calculateTotal products cart =
      { subtotal := calculateSubtotal products cart,
        delivery := CONFIG.DELIVERY_CHARGE,
        total := calculateSubtotal products cart + CONFIG.DELIVERY_CHARGE } := by
  intro products cart
  have hdel : ∀ subtotal : Rat, calculateDeliveryCharge subtotal = CONFIG.DELIVERY_CHARGE := by
    intro subtotal
    rw [calculateDeliveryCharge]
    split <;> rfl
  refine ⟨getCartWithDetails_eq_filterMap products cart, ?_, hdel, ?_⟩
  · rw [calculateSubtotal, foldl_subtotal_eq_sum, zero_add,
      getCartWithDetails_eq_filterMap, List.map_filterMap]
    refine congrArg List.sum (congrArg (fun f => List.filterMap f cart) ?_)
    funext item
    cases getProductById products item.productId <;> rfl
  · rw [calculateTotal, hdel]

/-! ## Cart operation sequences (for the quantity-bound claim) -/

/-- One cart mutation, as exposed by the cart module. -/
inductive CartOp where
  | add (products : List Product) (productId : String) (quantity : Rat) (addedAt : String)
  | update (productId : String) (newQuantity : Rat)
  | remove (productId : String)
  | clear
deriving Repr

/-- Applies one cart mutation to the stored cart. -/
def applyCartOp (cart : List CartItem) : CartOp → List CartItem
  | .add products productId quantity addedAt =>
    (addToCart products cart productId quantity addedAt).1
  | .update productId newQuantity => (updateCartItem cart productId newQuantity).1
  | .remove productId => (removeFromCart cart productId).1
  | .clear => clearCart

/-- Applies a sequence of cart mutations. -/
def applyCartOps (cart : List CartItem) (ops : List CartOp) : List CartItem :=
  ops.foldl applyCartOp cart

/-- An `add` operation carrying a positive quantity (the UI always passes a
positive quantity to `addToCart`). -/
def addQuantityPositive : CartOp → Prop
  | .add _ _ quantity _ => 1 ≤ quantity
  | _ => True

/-- Helper: `incrementFirst` keeps every quantity at least 1 when the increment is
at least 1. -/
lemma incrementFirst_lower_bound (productId : String) (quantity : Rat)
    (cart : List CartItem) (hq : 1 ≤ quantity)
    (hcart : ∀ item ∈ cart, 1 ≤ item.quantity) :
    ∀ item ∈ incrementFirst productId quantity cart, 1 ≤ item.quantity := by
  induction cart with
  | nil => simp [incrementFirst]
  | cons hd rest ih =>
    rw [incrementFirst]
    split
    · intro item hitem
      rcases List.mem_cons.mp hitem with rfl | hmem
      · have := hcart hd (List.mem_cons_self hd rest)
        simp only
        linarith
      · exact hcart item (List.mem_cons_of_mem hd hmem)
    · intro item hitem
      rcases List.mem_cons.mp hitem with rfl | hmem
      · exact hcart item (List.mem_cons_self item rest)
      · exact ih (fun i hi => hcart i (List.mem_cons_of_mem hd hi)) item hmem

/-- Helper: `setFirst` keeps every quantity at least 1 when the stored value is. -/
lemma setFirst_lower_bound (productId : String) (newQuantity : Rat)
    (cart : List CartItem) (hq : 1 ≤ newQuantity)
    (hcart : ∀ item ∈ cart, 1 ≤ item.quantity) :
    ∀ item ∈ setFirst productId newQuantity cart, 1 ≤ item.quantity := by
  induction cart with
  | nil => simp [setFirst]
  | cons hd rest ih =>
    rw [setFirst]
    split
    · intro item hitem
      rcases List.mem_cons.mp hitem with rfl | hmem
      · exact hq
      · exact hcart item (List.mem_cons_of_mem hd hmem)
    · intro item hitem
      rcases List.mem_cons.mp hitem with rfl | hmem
      · exact hcart item (List.mem_cons_self item rest)
      · exact ih (fun i hi => hcart i (List.mem_cons_of_mem hd hi)) item hmem

/-- Anything left in the cart after `removeFromCart` was already there. -/
lemma removeFromCart_mem (cart : List CartItem) (productId : String) :
    ∀ item ∈ (removeFromCart cart productId).1, item ∈ cart := by
  intro item h
  rw [removeFromCart] at h
  split at h
  · exact h
  · exact List.mem_of_mem_filter h

/-- Every single cart mutation preserves the quantity lower bound, provided
`add` is called with a positive quantity. -/
lemma applyCartOp_lower_bound (cart : List CartItem) (op : CartOp)
    (hop : addQuantityPositive op) (hcart : ∀ item ∈ cart, 1 ≤ item.quantity) :
    ∀ item ∈ applyCartOp cart op, 1 ≤ item.quantity := by
  cases op with
  | add products productId quantity addedAt =>
    rw [applyCartOp, addToCart]
    cases getProductById products productId with
    | none => exact hcart
    | some product =>
      simp only
      split
      · exact hcart
      · split
        · exact incrementFirst_lower_bound productId quantity cart hop hcart
        · intro item hitem
          rcases List.mem_append.mp hitem with hmem | hmem
          · exact hcart item hmem
          · rcases List.mem_singleton.mp hmem with rfl
            exact hop
  | update productId newQuantity =>
    rw [applyCartOp, updateCartItem]
    split
    · exact fun item hitem => hcart item (removeFromCart_mem cart productId item hitem)
    · next hge =>
      split
      · exact setFirst_lower_bound productId newQuantity cart (not_lt.mp hge) hcart
      · exact hcart
  | remove productId =>
    rw [applyCartOp]
    exact fun item hitem => hcart item (removeFromCart_mem cart productId item hitem)
  | clear => simp [applyCartOp, clearCart]

/-- Counterexample to claim C3 as stated: `updateCartItem` with value 150
stores quantity 150, so the cart does contain an item with quantity above
99 — no clamping to [1, 99] happens. -/
theorem claim_C3_counterexample :
    ¬ (∀ item ∈ (updateCartItem [{ productId := "buffalo-ghee", quantity := 5, addedAt := "" }]
        "buffalo-ghee" 150).1, item.quantity ≤ 99) := by
  decide

/-- Claim C3 (amended): `updateQuantity` with a value below 1 removes the
item; otherwise it stores the requested value unchanged — there is no upper
clamp, so quantities above 99 are reachable.  The lower bound survives: if
every `add` passes a positive quantity, every cart operation keeps all stored
quantities at least 1. -/
theorem claim_C3_amended :
    (∀ (cart : List CartItem) productId newQuantity, newQuantity < 1 →
      updateCartItem cart productId newQuantity = removeFromCart cart productId)
  ∧ (∀ (cart : List CartItem) productId newQuantity, 1 ≤ newQuantity →
      cart.any (fun item => item.productId == productId) = true →
      updateCartItem cart productId newQuantity = (setFirst productId newQuantity cart, true))
  ∧ (∀ (cart : List CartItem) (ops : List CartOp),
      (∀ item ∈ cart, 1 ≤ item.quantity) → (∀ op ∈ ops, addQuantityPositive op) →
      ∀ item ∈ applyCartOps cart ops, 1 ≤ item.quantity) := by
  refine ⟨?_, ?_, ?_⟩
  · intro cart productId newQuantity h
    rw [updateCartItem, if_pos h]
  · intro cart productId newQuantity h1 h2
    rw [updateCartItem, if_neg (not_lt.mpr h1), if_pos h2]
  · intro cart ops
    induction ops generalizing cart with
    | nil => intro hcart _; exact hcart
    | cons op rest ih =>
      intro hcart hops
      rw [applyCartOps, List.foldl_cons]
      exact ih (applyCartOp cart op)
        (applyCartOp_lower_bound cart op (hops op (List.mem_cons_self op rest)) hcart)
        (fun o ho => hops o (List.mem_cons_of_mem op ho))

/-- Witness for the amended C3 at concrete inputs: an update below 1 removes,
and a concrete add/update sequence keeps quantities at least 1. -/
theorem claim_C3_witness :
    updateCartItem [{ productId := "buffalo-ghee", quantity := 5, addedAt := "" }]
        "buffalo-ghee" 0
      = removeFromCart [{ productId := "buffalo-ghee", quantity := 5, addedAt := "" }]
        "buffalo-ghee"
  ∧ ∀ item ∈ applyCartOps []
      [CartOp.add sampleCatalog "buffalo-ghee" 2 "", CartOp.update "buffalo-ghee" 7],
      1 ≤ item.quantity :=
  ⟨claim_C3_amended.1 _ "buffalo-ghee" 0 (by norm_num),
    claim_C3_amended.2.2 [] _ (by simp)
      (by
        intro op hop
        rcases List.mem_cons.mp hop with rfl | hop
        · show (1 : Rat) ≤ 2
          norm_num
        · rcases List.mem_singleton.mp hop with rfl
          exact trivial)⟩

/-- Claim C4: in every checkout attempt the order-creation write is issued at
most once — even when the notification dispatch throws — and a notification
call appears in the trace only after a successful order-creation write. -/
theorem claim_C4_single_order_write :
    ∀ (products : List Product) (cart : List CartItem) (formData : CheckoutForm)
      (orderId : String) (w : CheckoutWorld),
      (processCheckout products cart formData orderId w).1.count Ev.createOrder ≤ 1
    ∧ (Ev.submitNotif ∈ (processCheckout products cart formData orderId w).1 →
        w.createOk = true
        ∧ ∃ rest, (processCheckout products cart formData orderId w).1
            = Ev.createOrder :: Ev.submitNotif :: rest) := by
  intro products cart formData orderId w
  rcases w with ⟨createOk, submitOk, updateOk⟩
  by_cases hform : (validateCheckoutForm formData).isValid = true <;>
    by_cases hempty : getCartWithDetails products cart = [] <;>
    by_cases hphone : formData.phone = "" <;>
    cases createOk <;> cases submitOk <;> cases updateOk <;>
    simp_all [processCheckout, List.length_eq_zero]

/-- Witness for C4 at concrete inputs: an all-success checkout attempt issues
one order-creation write, and the notification follows it. -/
theorem claim_C4_witness :
    (processCheckout sampleCatalog sampleCart sampleForm "ORD-20260212-001"
      { createOk := true, submitOk := true, updateOk := true }).1.count Ev.createOrder ≤ 1
  ∧ ∃ rest, (processCheckout sampleCatalog sampleCart sampleForm "ORD-20260212-001"
      { createOk := true, submitOk := true, updateOk := true }).1
        = Ev.createOrder :: Ev.submitNotif :: rest :=
  ⟨(claim_C4_single_order_write sampleCatalog sampleCart sampleForm "ORD-20260212-001"
      { createOk := true, submitOk := true, updateOk := true }).1,
    ((claim_C4_single_order_write sampleCatalog sampleCart sampleForm "ORD-20260212-001"
      { createOk := true, submitOk := true, updateOk := true }).2 (by decide)).2⟩

/-- Counterexample to claim C5 as stated: with the order-creation write
succeeding and the notification dispatch (the POST to the submission
endpoint) throwing, the `catch` block rethrows before `clearCart` runs — the
cart is not cleared and the attempt reports failure. -/
theorem claim_C5_counterexample :
    ((⟨true, false, true⟩ : CheckoutWorld)).createOk = true
  ∧ Ev.clearCartEv ∉ (processCheckout sampleCatalog sampleCart sampleForm
      "ORD-20260212-001" ⟨true, false, true⟩).1
  ∧ (processCheckout sampleCatalog sampleCart sampleForm
      "ORD-20260212-001" ⟨true, false, true⟩).2 = none := by
  refine ⟨rfl, ?_, ?_⟩ <;> decide

/-- Claim C5 (amended): the cart is cleared, and the attempt succeeds
outwardly, exactly when the form validates, the enriched cart is non-empty,
the order-creation write succeeds, the notification POST succeeds, and (when
a phone is present) the profile update succeeds; a rejected notification
POST aborts the attempt with the cart left intact.  (A notification e-mail
failure inside the endpoint is swallowed there and does not reject the
POST.) -/
theorem claim_C5_amended :
    ∀ (products : List Product) (cart : List CartItem) (formData : CheckoutForm)
      (orderId : String) (w : CheckoutWorld),
      ((processCheckout products cart formData orderId w).2.isSome = true ↔
        ((validateCheckoutForm formData).isValid = true
          ∧ getCartWithDetails products cart ≠ []
          ∧ w.createOk = true ∧ w.submitOk = true
          ∧ (formData.phone ≠ "" → w.updateOk = true)))
    ∧ (Ev.clearCartEv ∈ (processCheckout products cart formData orderId w).1 ↔
        (processCheckout products cart formData orderId w).2.isSome = true) := by
  intro products cart formData orderId w
  rcases w with ⟨createOk, submitOk, updateOk⟩
  by_cases hform : (validateCheckoutForm formData).isValid = true <;>
    by_cases hempty : getCartWithDetails products cart = [] <;>
    by_cases hphone : formData.phone = "" <;>
    cases createOk <;> cases submitOk <;> cases updateOk <;>
    simp_all [processCheckout, List.length_eq_zero]

/-- Witness for the amended C5 at concrete inputs: with every external call
succeeding, the attempts succeeds and the cart is cleared. -/
theorem claim_C5_witness :
    (processCheckout sampleCatalog sampleCart sampleForm "ORD-20260212-001"
      { createOk := true, submitOk := true, updateOk := true }).2.isSome = true
  ∧ Ev.clearCartEv ∈ (processCheckout sampleCatalog sampleCart sampleForm "ORD-20260212-001"
      { createOk := true, submitOk := true, updateOk := true }).1 := by
  have h := claim_C5_amended sampleCatalog sampleCart sampleForm "ORD-20260212-001"
    { createOk := true, submitOk := true, updateOk := true }
  have hsome := h.1.mpr ⟨by decide, by decide, rfl, rfl, fun _ => rfl⟩
  exact ⟨hsome, h.2.mpr hsome⟩

/-- The length of a one-message conditional segment. -/
lemma length_if_one (c : Prop) [Decidable c] (m : String) :
    (if c then [m] else []).length = if c then 1 else 0 := by
  split <;> rfl

/-- Helper: `validateOrderData` passes exactly the payloads with a non-empty order
identifier, a requester identifier, a complete customer block, a non-empty
items array and a positive numeric total. -/
lemma validateOrderData_isValid_iff (o : OrderData) :
    (validateOrderData o).isValid = true ↔
      (o.orderId ≠ "" ∧ o.userId ≠ ""
        ∧ (∃ c, o.customer = some c ∧ c.name ≠ "" ∧ c.phone ≠ "" ∧ c.address ≠ "")
        ∧ (∃ items, o.items = some items ∧ items ≠ [])
        ∧ (∃ total, o.total = some total ∧ 0 < total)) := by
  rcases o with ⟨orderId, userId, customer, items, total⟩
  simp only [validateOrderData]
  cases customer <;> cases items <;> cases total <;>
    split_ifs <;> simp_all [List.length_eq_zero, not_le] <;> tauto

/-- Claim C6: the order validator returns `isValid = true` iff the payload
has a non-empty order identifier, a requester identifier, a customer block
with name, phone and address, a non-empty items list, and a numeric total
strictly greater than 0; every violated rule appends exactly one message
(no short-circuiting), and an empty items list yields the message
"Order must contain at least one item". -/
theorem claim_C6_order_validator : ∀ o : OrderData,
    ((validateOrderData o).isValid = true ↔
      (o.orderId ≠ "" ∧ o.userId ≠ ""
        ∧ (∃ c, o.customer = some c ∧ c.name ≠ "" ∧ c.phone ≠ "" ∧ c.address ≠ "")
        ∧ (∃ items, o.items = some items ∧ items ≠ [])
        ∧ (∃ total, o.total = some total ∧ 0 < total)))
  ∧ ((validateOrderData o).errors.length =
      (if o.orderId = "" then 1 else 0) + (if o.userId = "" then 1 else 0)
      + (if o.customer = none then 1 else 0)
      + (match o.items with
         | none => 1
         | some items => if items.length = 0 then 1 else 0)
      + (match o.customer with
         | none => 0
         | some c => (if c.name = "" then 1 else 0) + (if c.phone = "" then 1 else 0)
             + (if c.address = "" then 1 else 0))
      + (match o.total with
         | none => 1
         | some total => if total ≤ 0 then 1 else 0))
  ∧ (o.items = some [] →
      "Order must contain at least one item" ∈ (validateOrderData o).errors) := by
  intro o
  refine ⟨validateOrderData_isValid_iff o, ?_, ?_⟩
  · rcases o with ⟨orderId, userId, customer, items, total⟩
    cases customer <;> cases items <;> cases total <;>
      simp [validateOrderData, List.length_append, length_if_one] <;> omega
  · intro hitems
    rcases o with ⟨orderId, userId, customer, items, total⟩
    simp only at hitems
    subst hitems
    rw [validateOrderData]
    simp

/-- Witness for C6 at concrete payloads: the sample order passes, and the
same payload with an empty items list fails carrying the required message. -/
theorem claim_C6_witness :
    (validateOrderData sampleOrderData).isValid = true
  ∧ "Order must contain at least one item"
      ∈ (validateOrderData { sampleOrderData with items := some [] }).errors :=
  ⟨(claim_C6_order_validator sampleOrderData).1.mpr
      ⟨by decide, by decide,
        ⟨{ name := "Jayesh Rajput", phone := "9876543210",
           address := "123 Dairy Street Kalyan West", email := "", landmark := "" },
          rfl, by decide, by decide, by decide⟩,
        ⟨[{ productId := "buffalo-ghee", productName := "Buffalo Ghee", quantity := 2,
            price := 800, unit := "1kg", subtotal := 1600 }], rfl, by decide⟩,
        ⟨1600, rfl, by norm_num⟩⟩,
    (claim_C6_order_validator { sampleOrderData with items := some [] }).2.2 rfl⟩

/-- Counterexample to claim C7 as stated: a valid, non-rate-limited POST
carrying a customer e-mail is answered 200 although the handler issued no
persistence call at all — the endpoint never persists, so a 2xx response
does not certify persistence. -/
theorem claim_C7_counterexample :
    (handler "POST" [] 0 sampleOrderDataWithEmail).1 = 200
  ∧ HEv.persistOrder ∉ (handler "POST" [] 0 sampleOrderDataWithEmail).2.2 := by
  refine ⟨?_, ?_⟩ <;> decide

/-- Claim C7 (amended): the submission endpoint performs no order-persistence
call at all (persistence happens in the browser before the endpoint is
called); it responds 2xx exactly for the CORS preflight and for a POST that
is not rate-limited, whose payload validates, and whose customer block
carries a non-empty e-mail — independently of any persistence state.  A
validated POST without a customer e-mail is answered 500, because the
notification-results logging reads `notifications[1].status` of an
`undefined` entry and the resulting `TypeError` lands in the outer `catch`.
E-mail delivery failures themselves cannot change the status: both senders
swallow their own errors. -/
theorem claim_C7_amended :
    ∀ (method : String) (store : List Int) (now : Int) (body : OrderData),
      HEv.persistOrder ∉ (handler method store now body).2.2
    ∧ ((200 ≤ (handler method store now body).1 ∧ (handler method store now body).1 < 300) ↔
        (method = "OPTIONS"
          ∨ (method = "POST" ∧ (isRateLimited store now).1 = false
              ∧ (validateOrderData body).isValid = true
              ∧ ∃ customer, body.customer = some customer ∧ customer.email ≠ "")))
    ∧ (∀ customer, method = "POST" → (isRateLimited store now).1 = false →
        (validateOrderData body).isValid = true → body.customer = some customer →
        customer.email = "" → (handler method store now body).1 = 500) := by
  intro method store now body
  rw [handler]
  split
  · next hopt => simp [hopt]
  · next hopt =>
    split
    · next hne =>
      refine ⟨List.not_mem_nil _, ⟨?_, ?_⟩, ?_⟩
      · intro h
        omega
      · rintro (h | h)
        · exact absurd h hopt
        · exact absurd h.1 hne
      · intro customer hp
        exact absurd hp hne
    · next hne =>
      have hpost : method = "POST" := not_not.mp hne
      cases hrl : (isRateLimited store now).1
      · simp only [hrl, Bool.false_eq_true, if_false]
        split
        · next hvalid =>
          simp only [Bool.not_eq_true'] at hvalid
          simp [hopt, hpost, hvalid]
        · next hvalid =>
          simp only [Bool.not_eq_true', Bool.not_eq_false] at hvalid
          cases hcust : body.customer with
          | none =>
            exfalso
            rcases (validateOrderData_isValid_iff body).mp hvalid
              with ⟨-, -, ⟨c, hc, -⟩, -, -⟩
            rw [hcust] at hc
            exact Option.noConfusion hc
          | some customer =>
            dsimp only
            split
            · next hemail =>
              refine ⟨?_, ⟨?_, ?_⟩, ?_⟩
              · intro hmem
                rcases List.mem_cons.mp hmem with h | h
                · exact HEv.noConfusion h
                · rcases List.mem_singleton.mp h with h
                  exact HEv.noConfusion h
              · intro _
                refine Or.inr ⟨hpost, ?_, hvalid, customer, ?_, hemail⟩ <;> simp [hrl]
              · intro _
                exact ⟨by norm_num, by norm_num⟩
              · intro customer' _ _ _ hcust' hemail'
                rcases Option.some_inj.mp hcust' with rfl
                exact absurd hemail' hemail
            · next hemail =>
              have hemail' : customer.email = "" := not_not.mp hemail
              refine ⟨?_, ⟨?_, ?_⟩, ?_⟩
              · intro hmem
                rcases List.mem_singleton.mp hmem with h
                exact HEv.noConfusion h
              · intro h
                exact absurd h.2 (by norm_num)
              · rintro (h | h)
                · exact absurd h hopt
                · rcases h with ⟨-, -, -, customer', hcust', hne'⟩
                  rcases Option.some_inj.mp hcust' with rfl
                  exact absurd hemail' hne'
              · intro customer' _ _ _ _ _
                rfl
      · simp [hrl, hopt, hpost]

/-- Witness for the amended C7: the sample POST with a customer e-mail gets a
2xx answer via the characterization, with no persistence call in its trace,
and the same payload with the e-mail blanked is answered 500. -/
theorem claim_C7_witness :
    HEv.persistOrder ∉ (handler "POST" [] 0 sampleOrderDataWithEmail).2.2
  ∧ 200 ≤ (handler "POST" [] 0 sampleOrderDataWithEmail).1
  ∧ (handler "POST" [] 0 sampleOrderDataWithEmail).1 < 300
  ∧ (handler "POST" [] 0 sampleOrderData).1 = 500 := by
  have h := claim_C7_amended "POST" [] 0 sampleOrderDataWithEmail
  have h2 := h.2.1.mpr
    (Or.inr ⟨rfl, by decide, by decide, sampleCustomerWithEmail, rfl, by decide⟩)
  have h3 := (claim_C7_amended "POST" [] 0 sampleOrderData).2.2
    { name := "Jayesh Rajput", phone := "9876543210",
      address := "123 Dairy Street Kalyan West", email := "", landmark := "" }
    rfl (by decide) (by decide) rfl rfl
  exact ⟨h.1, h2.1, h2.2, h3⟩

/-- Counterexample to claim C8 as stated: with the sole cart product out of
stock — a state `validateCart` itself flags as invalid — `processCheckout`
still runs to completion: the persistence write and the notification call
both happen, because `processCheckout` never invokes `validateCart`. -/
theorem claim_C8_counterexample :
    (validateCart outOfStockCatalog sampleCart).isValid = false
  ∧ (∃ item ∈ getCartWithDetails outOfStockCatalog sampleCart,
      item.product.inStock = false)
  ∧ Ev.createOrder ∈ (processCheckout outOfStockCatalog sampleCart sampleForm
      "ORD-20260212-001" ⟨true, true, true⟩).1
  ∧ Ev.submitNotif ∈ (processCheckout outOfStockCatalog sampleCart sampleForm
      "ORD-20260212-001" ⟨true, true, true⟩).1 := by
  refine ⟨?_, ?_, ?_, ?_⟩ <;> decide

/-- Claim C8 (amended): before any side effect `processCheckout` checks only
that the form validates and that the enriched cart is non-empty — it does not
re-run `validateCart`, so out-of-stock items and below-minimum subtotals do
not stop the attempt.  The unused `validateCart` function itself does flag
exactly the carts with an out-of-stock item or a subtotal below the
configured minimum. -/
theorem claim_C8_amended :
    (∀ (products : List Product) (cart : List CartItem) (formData : CheckoutForm)
        (orderId : String) (w : CheckoutWorld),
      ((validateCheckoutForm formData).isValid = false
          ∨ getCartWithDetails products cart = []) →
      processCheckout products cart formData orderId w = ([], none))
  ∧ (∀ (products : List Product) (cart : List CartItem), cart ≠ [] →
      ((validateCart products cart).isValid = true ↔
        ((∀ item ∈ getCartWithDetails products cart, item.product.inStock = true)
          ∧ CONFIG.MIN_ORDER_AMOUNT ≤ calculateSubtotal products cart))) := by
  constructor
  · intro products cart formData orderId w h
    rcases h with h | h
    · rw [processCheckout, if_pos (by rw [h]; rfl)]
    · rw [processCheckout]
      split
      · rfl
      · rw [if_pos (by rw [h]; rfl)]
  · intro products cart hcart
    rw [validateCart, if_neg hcart]
    simp [List.append_eq_nil, List.map_eq_nil_iff, List.filter_eq_nil_iff,
      ite_eq_right_iff, not_lt, calculateTotal]

/-- Witness for the amended C8: an invalid (empty) form stops the attempt
before any side effect, and the in-stock sample cart passes `validateCart`. -/
theorem claim_C8_witness :
    processCheckout sampleCatalog sampleCart
        { name := "", phone := "", email := "", address := "", deliverySlot := "",
          landmark := "", specialInstructions := "" } "ORD-20260212-001"
        { createOk := true, submitOk := true, updateOk := true } = ([], none)
  ∧ (validateCart sampleCatalog sampleCart).isValid = true :=
  ⟨claim_C8_amended.1 sampleCatalog sampleCart _ "ORD-20260212-001"
      { createOk := true, submitOk := true, updateOk := true } (Or.inl (by decide)),
    (claim_C8_amended.2 sampleCatalog sampleCart (by decide)).mpr
      ⟨by decide,
        by norm_num [calculateSubtotal, getCartWithDetails, getProductById, sampleCatalog,
          sampleCart, CONFIG.MIN_ORDER_AMOUNT]⟩⟩

/-- Counterexample to claim C9 as stated: a form whose delivery slot is a
non-empty string outside `CONFIG.DELIVERY_SLOTS` still passes
`validateCheckoutForm` — the validator only tests that the field is
non-empty, never membership in the enumeration. -/
theorem claim_C9_counterexample :
    (validateCheckoutForm
      { sampleForm with deliverySlot := "Midnight (2 AM - 3 AM)" }).isValid = true
  ∧ ("Midnight (2 AM - 3 AM)" : String) ∉ CONFIG.DELIVERY_SLOTS
  ∧ ("Midnight (2 AM - 3 AM)" : String) ≠ "" := by
  refine ⟨?_, ?_, ?_⟩ <;> decide

/-- Claim C9 (amended): form validation accepts any non-empty delivery slot:
the slot error is reported exactly when the field is empty, and a validated
form merely has a non-empty slot — membership in the configured enumeration
is never checked. -/
theorem claim_C9_amended : ∀ formData : CheckoutForm,
    ("Please select a delivery time slot" ∈ (validateCheckoutForm formData).errors ↔
      formData.deliverySlot = "")
  ∧ ((validateCheckoutForm formData).isValid = true → formData.deliverySlot ≠ "") := by
  intro formData
  rw [validateCheckoutForm]
  constructor
  · split_ifs <;> simp_all
  · intro hvalid hslot
    simp only [Nat.beq_eq_true_eq, List.length_eq_zero, List.append_eq_nil] at hvalid
    rw [if_pos hslot] at hvalid
    exact List.cons_ne_nil _ _ hvalid.2

/-- Witness for the amended C9: the sample form validates, hence its slot is
non-empty. -/
theorem claim_C9_witness : sampleForm.deliverySlot ≠ "" :=
  (claim_C9_amended sampleForm).2 (by decide)

/-- Characters produced by `sanitizeChar` are never one of the five
markup-significant characters. -/
lemma sanitizeChar_safe (c' c : Char) (h : c ∈ sanitizeChar c') :
    c ≠ '<' ∧ c ≠ '>' ∧ c ≠ Char.ofNat 34 ∧ c ≠ Char.ofNat 39 ∧ c ≠ '/' := by
  rw [sanitizeChar] at h
  split_ifs at h with h1 h2 h3 h4 h5 h6
  · fin_cases h <;> exact ⟨by decide, by decide, by decide, by decide, by decide⟩
  · fin_cases h <;> exact ⟨by decide, by decide, by decide, by decide, by decide⟩
  · fin_cases h <;> exact ⟨by decide, by decide, by decide, by decide, by decide⟩
  · fin_cases h <;> exact ⟨by decide, by decide, by decide, by decide, by decide⟩
  · fin_cases h <;> exact ⟨by decide, by decide, by decide, by decide, by decide⟩
  · fin_cases h <;> exact ⟨by decide, by decide, by decide, by decide, by decide⟩
  · rcases List.mem_singleton.mp h with rfl
    exact ⟨h2, h3, h4, h5, h6⟩

/-- Membership in the sanitized character list factors through one
`sanitizeChar` call. -/
lemma sanitizeList_safe (l : List Char) (c : Char) (h : c ∈ sanitizeList l) :
    c ≠ '<' ∧ c ≠ '>' ∧ c ≠ Char.ofNat 34 ∧ c ≠ Char.ofNat 39 ∧ c ≠ '/' := by
  induction l with
  | nil => exact absurd h (List.not_mem_nil c)
  | cons hd tl ih =>
    rw [sanitizeList] at h
    rcases List.mem_append.mp h with h | h
    · exact sanitizeChar_safe hd c h
    · exact ih h

/-- Claim C10: `sanitizeInput` is total over arbitrary values — every
non-string input yields the empty string, and a sanitized string never
contains a literal less-than, greater-than, double quote, single quote or
slash character, so it cannot introduce HTML tags or attribute breakouts. -/
theorem claim_C10_sanitize_input :
    sanitizeInput JSInput.nonString = ""
  ∧ ∀ (s : String), ∀ c ∈ (sanitizeInput (JSInput.str s)).data,
      c ≠ '<' ∧ c ≠ '>' ∧ c ≠ Char.ofNat 34 ∧ c ≠ Char.ofNat 39 ∧ c ≠ '/' :=
  ⟨rfl, fun s c h => sanitizeList_safe s.data c h⟩

/-- Witness for C10 at a concrete character of a concrete sanitized string. -/
theorem claim_C10_witness :
    'a' ≠ '<' ∧ 'a' ≠ '>' ∧ 'a' ≠ Char.ofNat 34 ∧ 'a' ≠ Char.ofNat 39 ∧ 'a' ≠ '/' :=
  claim_C10_sanitize_input.2 "a" 'a' (by decide)

end OmYashodaDairy
